import Mathlib

/-!
# PyExecGate: shallow embedding and verification

Embedding of the dispatch-and-execution engine of PyExecGate
(`src/main.py`) and its reference SSH handler (`src/scripts/ssh.py`).

Python values become the inductive `PyVal`; the stateful `lru_cache`
around `load_script` becomes explicit state passing over `LoadState`;
the network world seen by `execute_command` becomes an explicit
`ConnectOutcome` argument; wall-clock time is abstracted to the
duration arguments threaded through `waitFor` and `execute_command`.
-/

/-- Python values as they flow through the engine (JSON-like values,
plus `bytes`, as returned by handler methods). -/
inductive PyVal where
  | none : PyVal
  | bool (b : Bool) : PyVal
  | int (n : Int) : PyVal
  | str (s : String) : PyVal
  | bytes (bs : List UInt8) : PyVal
  | list (xs : List PyVal) : PyVal
  | dict (entries : List (String × PyVal)) : PyVal

/-- Python's `type(v).__name__` for our value fragment. -/
def pyTypeName : PyVal → String
  | .none => "NoneType"
  | .bool _ => "bool"
  | .int _ => "int"
  | .str _ => "str"
  | .bytes _ => "bytes"
  | .list _ => "list"
  | .dict _ => "dict"

/-- Python's `str(v)` on our value fragment, as used when a value is
interpolated into an f-string (only the `str` case is exercised by the
engine's header construction; the rest mirror Python's rendering). -/
def pyStr : PyVal → String
  | .none => "None"
  | .bool b => if b then "True" else "False"
  | .int n => toString n
  | .str s => s
  | .bytes _ => "<bytes>"
  | .list _ => "<list>"
  | .dict _ => "<dict>"

/-- `d.get(k)` on a Python dict (first binding wins; Python dicts have
unique keys, which list-based dicts generalize). -/
def dictGet (entries : List (String × PyVal)) (key : String) : Option PyVal :=
  match entries with
  | [] => Option.none
  | (k, v) :: rest => if k = key then some v else dictGet rest key

/-- `d.get(k, default)` on a Python dict. -/
def dictGetD (entries : List (String × PyVal)) (key : String) (dflt : PyVal) : PyVal :=
  (dictGet entries key).getD dflt

/-- `re.fullmatch` character class `[a-zA-Z0-9_]`. -/
def isWordChar (c : Char) : Bool :=
  ('a' ≤ c && c ≤ 'z') || ('A' ≤ c && c ≤ 'Z') || ('0' ≤ c && c ≤ '9') || c = '_'

/-- `is_script_name_safe` from `src/main.py`:
`bool(re.fullmatch(r"[a-zA-Z0-9_]+", script_name))`.
A full match of `[a-zA-Z0-9_]+` holds exactly when the string is
non-empty and every character is in the class. -/
def is_script_name_safe (script_name : String) : Bool :=
  !script_name.isEmpty && script_name.data.all isWordChar

/-- `fastapi.HTTPException(status_code, detail)`. -/
structure HTTPError where
  status : Nat
  detail : String
deriving DecidableEq, Repr

/-! ## PyModule cache (`load_script`, `@lru_cache(maxsize=32)`) -/

/-- What an invocation of a handler method does: it runs for `duration`
abstract time units (the `asyncio.to_thread` worker's wall time) and
then either returns a value or raises. -/
inductive PyOutcome where
  | ok (v : PyVal) : PyOutcome
  | typeError (msg : String) : PyOutcome
  | otherExc (msg : String) : PyOutcome

/-- A running invocation: abstract duration plus its outcome. -/
structure MethodRun where
  duration : Nat
  outcome : PyOutcome

/-- A callable module attribute: the parameter names the Python function
accepts as keyword arguments, the subset that is required (has no
default), and the body's behavior on bound parameters. -/
structure Method where
  accepted : List String
  required : List String
  run : List (String × PyVal) → MethodRun

/-- A module attribute: either a callable function or a plain
non-callable value. -/
inductive Attr where
  | callable (m : Method) : Attr
  | plain (v : PyVal) : Attr

/-- A loaded handler module: a fresh identity (each successful
`exec_module` produces a distinct module object) and its attribute
table. -/
structure PyModule where
  id : Nat
  attrs : List (String × Attr)

/-- Executing a script file's top-level code either defines the module's
attributes or raises. -/
inductive ExecOutcome where
  | ok (attrs : List (String × Attr)) : ExecOutcome
  | raising (msg : String) : ExecOutcome

/-- A handler source file in `SCRIPTS_DIR`: what executing it does. -/
structure ScriptFile where
  exec : ExecOutcome

/-- The handler storage: `scripts/<name>.py` existence and content. -/
def FS : Type := String → Option ScriptFile

/-- The process-wide mutable state hidden inside `@lru_cache(maxsize=32)`
around `load_script`, made explicit: the memo table in
most-recently-used-first order, a per-name count of how many times a
script's top-level code was executed, and a fresh-identity counter for
new module objects. -/
structure LoadState where
  cache : List (String × PyModule)
  execCount : String → Nat
  nextId : Nat

/-- Association-list lookup keyed by string (models Python dict lookup
for the memo table and `getattr` for the attribute table). -/
def alookup {β : Type} (key : String) : List (String × β) → Option β
  | [] => Option.none
  | (k, v) :: rest => if k = key then some v else alookup key rest

/-- `maxsize=32` of the `lru_cache` decorator. -/
def LRU_MAXSIZE : Nat := 32

/-- `load_script` from `src/main.py` with the `lru_cache` state passed
explicitly. On a cache hit the memoized module is returned and the
entry moves to most-recently-used position; on a miss the body runs:
name validation, existence check, module creation and top-level
execution. Raised `HTTPException`s are not memoized (`lru_cache`
caches only successful returns); a successful load is inserted
most-recently-used-first with least-recently-used eviction beyond
`LRU_MAXSIZE`. -/
def load_script (fs : FS) (st : LoadState) (script_name : String) :
    Except HTTPError PyModule × LoadState :=
  match alookup script_name st.cache with
  | some m =>
      (.ok m,
       { st with cache :=
          (script_name, m) :: st.cache.filter (fun e => e.1 ≠ script_name) })
  | Option.none =>
      if is_script_name_safe script_name = false then
        (.error ⟨400, "Unsafe script name."⟩, st)
      else
        match fs script_name with
        | Option.none =>
            (.error ⟨404, "Script '" ++ script_name ++ "' not found."⟩, st)
        | some file =>
            match file.exec with
            | .raising msg =>
                (.error ⟨500, "Error loading script: " ++ msg⟩, st)
            | .ok attrs =>
                let m : PyModule := ⟨st.nextId, attrs⟩
                (.ok m,
                 { cache := ((script_name, m) :: st.cache).take LRU_MAXSIZE,
                   execCount := fun n =>
                     if n = script_name then st.execCount n + 1 else st.execCount n,
                   nextId := st.nextId + 1 })

/-! ## Dispatch engine (`run_script_async`) -/

/-- `getattr`-style resolution over the module's attribute table
(`hasattr(module, name)` is `pyGetAttr module name ≠ none`). -/
def pyGetAttr (m : PyModule) (name : String) : Option Attr :=
  alookup name m.attrs

/-- Calling `method(**params)`: Python binds the keyword arguments
first, raising `TypeError` for an unexpected keyword or a missing
required one before the body runs; otherwise the body runs. A call on
a non-callable attribute raises `TypeError` immediately. -/
def invokeAttr (a : Attr) (params : List (String × PyVal)) : MethodRun :=
  match a with
  | .plain v =>
      ⟨0, .typeError ("'" ++ pyTypeName v ++ "' object is not callable")⟩
  | .callable m =>
      if params.any (fun p => !m.accepted.contains p.1) then
        ⟨0, .typeError "got an unexpected keyword argument"⟩
      else if m.required.any (fun r => !(params.map Prod.fst).contains r) then
        ⟨0, .typeError "missing a required argument"⟩
      else m.run params

/-- `asyncio.wait_for(worker, timeout)`: if the worker's duration
exceeds the timeout, the engine stops waiting at `timeout` and the
wait raises `asyncio.TimeoutError`; otherwise it waits the worker's
own duration and yields its outcome. The second component is how long
the engine actually waited. -/
def waitFor (r : MethodRun) (timeout : Nat) : Except Unit PyOutcome × Nat :=
  if r.duration > timeout then (.error (), timeout) else (.ok r.outcome, r.duration)

/-- A caller-visible response: a binary file download
(`fastapi.Response(content, media_type, headers)`) or a structured
JSON body. -/
inductive Resp where
  | file (content : List UInt8) (media_type : String)
      (headers : List (String × String)) : Resp
  | json (v : PyVal) : Resp

/-- The result-classification block of `run_script_async`
(`src/main.py` lines 82-100): a dict containing a `content` key is a
file result — its `content` must be `bytes` (`HTTPException(500)`
otherwise), `filename` defaults to `"file.bin"`, `media_type` to
`"application/octet-stream"`, and the response carries the
`Content-Disposition` attachment header; anything else is returned
as-is for JSON serialization. -/
def classifyResult (result : PyVal) : Except HTTPError Resp :=
  match result with
  | .dict entries =>
      match dictGet entries "content" with
      | Option.none => .ok (.json result)
      | some content =>
          match content with
          | .bytes bs =>
              let filename := dictGetD entries "filename" (.str "file.bin")
              let media_type := dictGetD entries "media_type"
                (.str "application/octet-stream")
              .ok (.file bs (pyStr media_type)
                [("Content-Disposition",
                  "attachment; filename=\"" ++ pyStr filename ++ "\"")])
          | _ => .error ⟨500, "File content must be bytes."⟩
  | _ => .ok (.json result)

/-- `run_script_async` from `src/main.py`: load the module (propagating
load failures), check `hasattr(module, method_name)` (404 when
absent), then run the method off-thread under `asyncio.wait_for`.
Inside the `try` block: `asyncio.TimeoutError` maps to 408, any
`TypeError` to 400, and any other exception to 500 — including the
`HTTPException(500, "File content must be bytes.")` raised by result
classification, which the generic `except Exception` handler re-wraps
(its `str()` is `"<status>: <detail>"`). -/
def run_script_async (fs : FS) (st : LoadState) (script_name method_name : String)
    (params : List (String × PyVal)) (timeout : Nat) :
    Except HTTPError Resp × LoadState :=
  match load_script fs st script_name with
  | (.error e, st') => (.error e, st')
  | (.ok module, st') =>
      match pyGetAttr module method_name with
      | Option.none =>
          (.error ⟨404, "Метод '" ++ method_name ++ "' не найден в скрипте '" ++
              script_name ++ "'."⟩, st')
      | some attr =>
          match waitFor (invokeAttr attr params) timeout with
          | (.error (), _) =>
              (.error ⟨408, "Script execution timed out."⟩, st')
          | (.ok (.typeError msg), _) =>
              (.error ⟨400, "Error calling method '" ++ method_name ++ "': " ++ msg⟩,
               st')
          | (.ok (.otherExc msg), _) =>
              (.error ⟨500, "Error executing method '" ++ method_name ++ "': " ++ msg⟩,
               st')
          | (.ok (.ok v), _) =>
              match classifyResult v with
              | .ok resp => (.ok resp, st')
              | .error e =>
                  (.error ⟨500, "Error executing method '" ++ method_name ++ "': " ++
                      toString e.status ++ ": " ++ e.detail⟩, st')

/-! ## Remote Command Executor (`src/scripts/ssh.py`, `execute_command`) -/

/-- `SSHError(message)` from `src/scripts/ssh.py`. -/
structure SSHErr where
  message : String
deriving DecidableEq, Repr

/-- What the remote session yields when connection and authentication
succeed: the raw stdout/stderr texts the drain loop accumulated (the
incremental-then-final drain collects the full streams) and the exit
status. -/
structure SessionRun where
  stdoutText : String
  stderrText : String
  exitCode : Int

/-- The network world seen by one `execute_command` attempt: success,
`paramiko.AuthenticationException`, a `paramiko.SSHException` /
`socket.error` (carrying `type(e).__name__` and `str(e)`), or any
other exception. -/
inductive ConnectOutcome where
  | success (run : SessionRun) : ConnectOutcome
  | authFail (msg : String) : ConnectOutcome
  | connFail (tyName msg : String) : ConnectOutcome
  | otherFail (tyName msg : String) : ConnectOutcome

/-- The Remote Command Result dict assembled by `execute_command`. -/
structure RCResult where
  status : String
  exit_code : Int
  stdout : PyVal
  stderr : String
  error : String
  execution_time : Rat
  host : String

/-- Python truthiness of an optional string (`not x` is true for both
`None` and the empty string). -/
def strFalsy : Option String → Bool
  | Option.none => true
  | some s => s.isEmpty

/-- The parameter-validation prologue of `execute_command` from
`src/scripts/ssh.py`: missing required parameters among `host`,
`username`, `command` are collected (in that order) into one
`SSHError`; then the policy is checked against the three trust
values. `none` means validation passed. -/
def ssh_validate (host command : String) (username : Option String)
    (policy : String) : Option SSHErr :=
  let errors :=
    (if host.isEmpty then ["host"] else []) ++
    (if strFalsy username then ["username"] else []) ++
    (if command.isEmpty then ["command"] else [])
  if errors ≠ [] then
    some ⟨"Missing required parameters: " ++ String.intercalate ", " errors⟩
  else if policy ≠ "auto" ∧ policy ≠ "warning" ∧ policy ≠ "strict" then
    some ⟨"Invalid host policy. Valid options: auto, warning, strict"⟩
  else
    Option.none

/-- The `try`/`except`/`finally` attempt block of `execute_command`:
the result record starts at the sentinel values, the network world
decides which branch fills it, and the `finally` clause stamps
`execution_time` (the rounded `perf_counter` delta, abstracted as
`elapsed`) on every path. `jsonParse` models `json.loads`, returning
`none` on `JSONDecodeError`. -/
def ssh_attempt (host : String) (parse_json : Bool)
    (jsonParse : String → Option PyVal) (net : ConnectOutcome)
    (elapsed : Rat) : RCResult :=
  let base : RCResult :=
    { status := "error", exit_code := -1, stdout := PyVal.none,
      stderr := "", error := "", execution_time := 0, host := host }
  let r : RCResult :=
    match net with
    | .success run =>
        let stdout_str := run.stdoutText.trim
        let stderr_str := run.stderrText.trim
        let stdoutVal : PyVal :=
          if parse_json ∧ ¬stdout_str.isEmpty then
            match jsonParse stdout_str with
            | some v => v
            | Option.none => .str stdout_str
          else if ¬stdout_str.isEmpty then .str stdout_str else PyVal.none
        { base with
          status := if run.exitCode = 0 then "success" else "error",
          exit_code := run.exitCode,
          stdout := stdoutVal,
          stderr := stderr_str }
    | .authFail _ =>
        { base with error := "Authentication failed: Check credentials" }
    | .connFail tyName msg =>
        { base with error := "Connection error: " ++ tyName ++ ": " ++ msg }
    | .otherFail tyName msg =>
        { base with error := "Unexpected error: " ++ tyName ++ ": " ++ msg }
  { r with execution_time := elapsed }

/-- `execute_command` from `src/scripts/ssh.py`: validation raises
before the timer starts and before the connection attempt (so the
raised error depends on neither the network world nor the measured
time); once validation passes, the attempt never raises — failures
are encoded in the returned record. -/
def execute_command (host command : String)
    (username : Option String) (policy : String) (parse_json : Bool)
    (jsonParse : String → Option PyVal) (net : ConnectOutcome)
    (elapsed : Rat) : Except SSHErr RCResult :=
  match ssh_validate host command username policy with
  | some e => .error e
  | Option.none => .ok (ssh_attempt host parse_json jsonParse net elapsed)

/-! ## Theorems -/

/-- Membership in the character class `[a-zA-Z0-9_]`, spelled out. -/
def InWordClass (c : Char) : Prop :=
  ('a' ≤ c ∧ c ≤ 'z') ∨ ('A' ≤ c ∧ c ≤ 'Z') ∨ ('0' ≤ c ∧ c ≤ '9') ∨ c = '_'

instance (c : Char) : Decidable (InWordClass c) := by
  unfold InWordClass; infer_instance

lemma isWordChar_iff (c : Char) : isWordChar c = true ↔ InWordClass c := by
  simp [isWordChar, InWordClass]
  tauto

/-- C1: a string containing any character outside `[A-Za-z0-9_]` is
rejected by `is_script_name_safe`, and a string it accepts consists
exclusively of ASCII letters, digits and underscore. -/
theorem c1_validator_rejects_nonword (s : String) :
    (∀ c ∈ s.data, ¬InWordClass c → is_script_name_safe s = false) ∧
    (is_script_name_safe s = true → ∀ c ∈ s.data, InWordClass c) := by
  constructor
  · intro c hc hnot
    have hw : isWordChar c = false := by
      cases h : isWordChar c
      · rfl
      · exact absurd ((isWordChar_iff c).mp h) hnot
    have hall : s.data.all isWordChar = false := by
      rcases h : s.data.all isWordChar
      · rfl
      · exact absurd (List.all_eq_true.mp h c hc) (by simp [hw])
    simp [is_script_name_safe, hall]
  · intro hsafe c hc
    have hall : s.data.all isWordChar = true := by
      have := (Bool.and_eq_true _ _).mp hsafe
      exact this.2
    exact (isWordChar_iff c).mp (List.all_eq_true.mp hall c hc)

/-- Witness for C1 at a concrete input: `"a.b"` contains `'.'`, which is
outside the class, so the validator rejects it. -/
theorem c1_validator_rejects_nonword_witness :
    is_script_name_safe "a.b" = false :=
  (c1_validator_rejects_nonword "a.b").1 '.' (by decide) (by decide)

/-- If a lookup misses, every key in the association list differs from
the looked-up one. -/
lemma keys_ne_of_alookup_none {β : Type} (name : String) :
    ∀ (c : List (String × β)), alookup name c = Option.none →
      ∀ e ∈ c, e.1 ≠ name := by
  intro c
  induction c with
  | nil => intro _ e he; cases he
  | cons hd tl ih =>
      obtain ⟨k, b⟩ := hd
      intro h e he
      rw [alookup] at h
      by_cases hk : k = name
      · rw [if_pos hk] at h; cases h
      · rw [if_neg hk] at h
        rcases List.mem_cons.mp he with he | he
        · subst he; exact hk
        · exact ih h e he

/-- A missed-key filter keeps the list unchanged. -/
lemma filter_ne_of_alookup_none {β : Type} (name : String)
    (c : List (String × β)) (h : alookup name c = Option.none) :
    c.filter (fun e => e.1 ≠ name) = c := by
  apply List.filter_eq_self.mpr
  intro e he
  simpa using keys_ne_of_alookup_none name c h e he

/-- The same, on a `take` prefix of the list. -/
lemma filter_ne_of_alookup_none_take {β : Type} (name : String)
    (c : List (String × β)) (h : alookup name c = Option.none) (k : Nat) :
    (c.take k).filter (fun e => e.1 ≠ name) = c.take k := by
  apply List.filter_eq_self.mpr
  intro e he
  simpa using keys_ne_of_alookup_none name c h e (List.mem_of_mem_take he)

/-- Filtering out a key twice is the same as filtering once. -/
lemma filter_ne_idem {β : Type} (name : String) (c : List (String × β)) :
    (c.filter (fun e => e.1 ≠ name)).filter (fun e => e.1 ≠ name) =
      c.filter (fun e => e.1 ≠ name) := by
  apply List.filter_eq_self.mpr
  intro e he
  exact (List.mem_filter.mp he).2

/-- `load_script` on a cache hit: memoized module, entry moved to the
most-recently-used position. -/
lemma load_script_hit (fs : FS) (st : LoadState) (name : String)
    (m : PyModule) (hc : alookup name st.cache = some m) :
    load_script fs st name =
      (.ok m,
       { st with cache := (name, m) :: st.cache.filter (fun e => e.1 ≠ name) }) := by
  rw [load_script, hc]

/-- `load_script` on a miss with a loadable file: a fresh module is
built, memoized, and the execution count for that name goes up by
one. -/
lemma load_script_miss_ok (fs : FS) (st : LoadState) (name : String)
    (file : ScriptFile) (attrs : List (String × Attr))
    (hc : alookup name st.cache = Option.none)
    (hsafe : is_script_name_safe name = true)
    (hfs : fs name = some file) (hex : file.exec = .ok attrs) :
    load_script fs st name =
      (.ok ⟨st.nextId, attrs⟩,
       { cache := ((name, (⟨st.nextId, attrs⟩ : PyModule)) :: st.cache).take LRU_MAXSIZE,
         execCount := fun n =>
           if n = name then st.execCount n + 1 else st.execCount n,
         nextId := st.nextId + 1 }) := by
  rw [load_script, hc, hsafe, hfs]
  simp [hex]

/-- `load_script` on a miss when the file is absent: 404, state
untouched. -/
lemma load_script_miss_absent (fs : FS) (st : LoadState) (name : String)
    (hc : alookup name st.cache = Option.none)
    (hsafe : is_script_name_safe name = true)
    (hfs : fs name = Option.none) :
    load_script fs st name =
      (.error ⟨404, "Script '" ++ name ++ "' not found."⟩, st) := by
  rw [load_script, hc, hsafe, hfs]
  simp

/-- `load_script` on a miss when top-level execution raises: 500, state
untouched (`lru_cache` does not memoize raised exceptions). -/
lemma load_script_miss_raising (fs : FS) (st : LoadState) (name : String)
    (file : ScriptFile) (msg : String)
    (hc : alookup name st.cache = Option.none)
    (hsafe : is_script_name_safe name = true)
    (hfs : fs name = some file) (hex : file.exec = .raising msg) :
    load_script fs st name =
      (.error ⟨500, "Error loading script: " ++ msg⟩, st) := by
  rw [load_script, hc, hsafe, hfs]
  simp [hex]

/-- C2: if `load_script` succeeds, loading the same name again returns
the very same module with the state unchanged (so top-level code is
not re-executed), the first load out of cache executed the top-level
code exactly once, and a load served from cache executed nothing. -/
theorem c2_cached_module_loads_once (fs : FS) (st : LoadState) (name : String)
    (m : PyModule) (st₁ : LoadState)
    (h : load_script fs st name = (.ok m, st₁)) :
    load_script fs st₁ name = (.ok m, st₁) ∧
    (alookup name st.cache = Option.none →
      st₁.execCount name = st.execCount name + 1) ∧
    (∀ m₀, alookup name st.cache = some m₀ →
      st₁.execCount name = st.execCount name) := by
  rcases hc : alookup name st.cache with _ | m₀
  · rcases hsafe : is_script_name_safe name with _ | _
    · rw [load_script, hc, hsafe] at h
      simp at h
    · rcases hfs : fs name with _ | file
      · rw [load_script_miss_absent fs st name hc hsafe hfs] at h
        simp at h
      · rcases hex : file.exec with attrs | msg
        · rw [load_script_miss_ok fs st name file attrs hc hsafe hfs hex] at h
          rw [Prod.mk.injEq, Except.ok.injEq] at h
          obtain ⟨hm, hst⟩ := h
          subst hm
          subst hst
          refine ⟨?_, ?_, ?_⟩
          · have htake :
                ((name, (⟨st.nextId, attrs⟩ : PyModule)) :: st.cache).take LRU_MAXSIZE =
                  (name, (⟨st.nextId, attrs⟩ : PyModule)) :: st.cache.take 31 := by
              rw [LRU_MAXSIZE]
              rfl
            have hc1 : alookup name
                (((name, (⟨st.nextId, attrs⟩ : PyModule)) :: st.cache).take LRU_MAXSIZE) =
                some ⟨st.nextId, attrs⟩ := by
              rw [htake, alookup]
              simp
            rw [load_script_hit fs _ name _ hc1]
            rw [Prod.mk.injEq]
            refine ⟨rfl, ?_⟩
            have hfil :
                (((name, (⟨st.nextId, attrs⟩ : PyModule)) :: st.cache).take
                    LRU_MAXSIZE).filter (fun e => e.1 ≠ name) =
                  st.cache.take 31 := by
              rw [htake, List.filter_cons]
              simp only [ne_eq, decide_not]
              rw [if_neg (by simp)]
              apply List.filter_eq_self.mpr
              intro e he
              have := keys_ne_of_alookup_none name st.cache hc e
                (List.mem_of_mem_take he)
              simpa using this
            rw [hfil, htake]
          · intro _
            simp
          · intro m₀ hsome
            exact Option.noConfusion hsome
        · rw [load_script_miss_raising fs st name file msg hc hsafe hfs hex] at h
          simp at h
  · rw [load_script_hit fs st name m₀ hc] at h
    rw [Prod.mk.injEq, Except.ok.injEq] at h
    obtain ⟨hm, hst⟩ := h
    subst hm
    subst hst
    refine ⟨?_, ?_, ?_⟩
    · have hc1 : alookup name
          ((name, m₀) :: st.cache.filter (fun e => e.1 ≠ name)) = some m₀ := by
        rw [alookup]
        simp
      rw [load_script_hit fs _ name m₀ hc1]
      rw [Prod.mk.injEq]
      refine ⟨rfl, ?_⟩
      have hfil :
          ((name, m₀) :: st.cache.filter (fun e => e.1 ≠ name)).filter
              (fun e => e.1 ≠ name) =
            st.cache.filter (fun e => e.1 ≠ name) := by
        rw [List.filter_cons]
        simp [filter_ne_idem]
      rw [hfil]
    · intro hnone
      exact Option.noConfusion hnone
    · intro m₀' _
      rfl

/-- Concrete storage for witnesses: one script `"s"` whose top-level
execution succeeds and defines no attributes. -/
def wFS : FS := fun n => if n = "s" then some ⟨.ok []⟩ else Option.none

/-- A fresh load state for witnesses. -/
def wSt0 : LoadState := ⟨[], fun _ => 0, 0⟩

/-- The state right after the first successful load of `"s"` from
`wSt0`. -/
def wSt1 : LoadState :=
  ⟨[("s", ⟨0, []⟩)], fun n => if n = "s" then 0 + 1 else 0, 1⟩

/-- Witness for C2 at a concrete input: after loading `"s"` once, a
second load returns the same module and state, and the first load
executed the script exactly once. -/
theorem c2_cached_module_loads_once_witness :
    load_script wFS wSt1 "s" = (.ok ⟨0, []⟩, wSt1) ∧
    wSt1.execCount "s" = wSt0.execCount "s" + 1 := by
  have H := c2_cached_module_loads_once wFS wSt0 "s" ⟨0, []⟩ wSt1 (by rfl)
  exact ⟨H.1, H.2.1 rfl⟩

/-- C9: on a cache miss for a validated name, a missing handler file
yields a 404 error and a raising load yields a 500 error, both
reported to the caller with the load state untouched (failures are not
memoized); a later load of the same name against a storage that now
has a loadable file therefore succeeds from storage. -/
theorem c9_load_failures_not_cached (fs fs₂ : FS) (st : LoadState)
    (name : String)
    (hsafe : is_script_name_safe name = true)
    (hmiss : alookup name st.cache = Option.none) :
    (fs name = Option.none →
      load_script fs st name =
        (.error ⟨404, "Script '" ++ name ++ "' not found."⟩, st)) ∧
    (∀ file msg, fs name = some file → file.exec = .raising msg →
      load_script fs st name =
        (.error ⟨500, "Error loading script: " ++ msg⟩, st)) ∧
    (∀ file attrs, fs₂ name = some file → file.exec = .ok attrs →
      (load_script fs₂ st name).1 = .ok ⟨st.nextId, attrs⟩) := by
  refine ⟨?_, ?_, ?_⟩
  · intro hfs
    exact load_script_miss_absent fs st name hmiss hsafe hfs
  · intro file msg hfs hex
    exact load_script_miss_raising fs st name file msg hmiss hsafe hfs hex
  · intro file attrs hfs hex
    rw [load_script_miss_ok fs₂ st name file attrs hmiss hsafe hfs hex]

/-- Witness for C9 at concrete inputs: loading `"s"` from an empty
storage fails with 404 leaving the fresh state unchanged, and loading
it afterwards from a storage holding the file succeeds. -/
theorem c9_load_failures_not_cached_witness :
    load_script (fun _ => Option.none) wSt0 "s" =
      (.error ⟨404, "Script 's' not found."⟩, wSt0) ∧
    (load_script wFS wSt0 "s").1 = .ok ⟨0, []⟩ := by
  have H := c9_load_failures_not_cached (fun _ => Option.none) wFS wSt0 "s"
    (by decide) rfl
  exact ⟨H.1 rfl, H.2.2 ⟨.ok []⟩ [] (by rfl) rfl⟩

/-- C3: a mapping containing a `content` key is classified as a file
result — bytes content yields a binary response with the
`Content-Disposition` attachment header (filename defaulting to
`file.bin`, media type to `application/octet-stream`), non-bytes
content is a fatal 500 error, and a value without a `content` key is
answered as a structured result. -/
theorem c3_content_key_discriminates (entries : List (String × PyVal))
    (v : PyVal) :
    (∀ bs, dictGet entries "content" = some (.bytes bs) →
      classifyResult (.dict entries) =
        .ok (.file bs
          (pyStr (dictGetD entries "media_type" (.str "application/octet-stream")))
          [("Content-Disposition",
            "attachment; filename=\"" ++
              pyStr (dictGetD entries "filename" (.str "file.bin")) ++ "\"")])) ∧
    (dictGet entries "filename" = Option.none →
      pyStr (dictGetD entries "filename" (.str "file.bin")) = "file.bin") ∧
    (dictGet entries "media_type" = Option.none →
      pyStr (dictGetD entries "media_type" (.str "application/octet-stream")) =
        "application/octet-stream") ∧
    (∀ c, dictGet entries "content" = some c → (∀ bs, c ≠ .bytes bs) →
      classifyResult (.dict entries) =
        .error ⟨500, "File content must be bytes."⟩) ∧
    (dictGet entries "content" = Option.none →
      classifyResult (.dict entries) = .ok (.json (.dict entries))) ∧
    ((∀ es, v ≠ .dict es) → classifyResult v = .ok (.json v)) := by
  refine ⟨?_, ?_, ?_, ?_, ?_, ?_⟩
  · intro bs h
    simp [classifyResult, h]
  · intro h
    simp [dictGetD, h, pyStr]
  · intro h
    simp [dictGetD, h, pyStr]
  · intro c h hne
    cases c with
    | bytes bs => exact absurd rfl (hne bs)
    | none => simp [classifyResult, h]
    | bool b => simp [classifyResult, h]
    | int n => simp [classifyResult, h]
    | str s => simp [classifyResult, h]
    | list xs => simp [classifyResult, h]
    | dict es => simp [classifyResult, h]
  · intro h
    simp [classifyResult, h]
  · intro h
    cases v with
    | dict es => exact absurd rfl (h es)
    | none => rfl
    | bool b => rfl
    | int n => rfl
    | str s => rfl
    | bytes bs => rfl
    | list xs => rfl

/-- Witness for C3 at the spec's concrete inputs:
`{"content": b"a", "filename": "a.bin"}` yields a binary response with
the attachment header, and `{"content": "not-bytes"}` fails with the
fatal 500 error. -/
theorem c3_content_key_discriminates_witness :
    classifyResult (.dict [("content", .bytes [97]), ("filename", .str "a.bin")]) =
      .ok (.file [97] "application/octet-stream"
        [("Content-Disposition", "attachment; filename=\"a.bin\"")]) ∧
    classifyResult (.dict [("content", .str "not-bytes")]) =
      .error ⟨500, "File content must be bytes."⟩ := by
  have H := c3_content_key_discriminates
    [("content", .bytes [97]), ("filename", .str "a.bin")] PyVal.none
  have H2 := c3_content_key_discriminates
    [("content", .str "not-bytes")] PyVal.none
  refine ⟨?_, ?_⟩
  · have h1 := H.1 [97] (by rfl)
    exact h1
  · exact H2.2.2.2.1 (.str "not-bytes") rfl
      (fun bs hh => PyVal.noConfusion hh)

/-- The status of an engine error response, if any. -/
def errStatus : Except HTTPError Resp → Option Nat
  | .error e => some e.status
  | .ok _ => Option.none

/-- C4: when a parameter key does not match the target method's
accepted parameter names, the dispatch fails with status 400 carrying
the binding mismatch description — never with the 500 execution
error. -/
theorem c4_param_mismatch_is_bad_request (fs : FS) (st : LoadState)
    (script mname : String) (params : List (String × PyVal)) (timeout : Nat)
    (module : PyModule) (st' : LoadState) (m : Method)
    (hload : load_script fs st script = (.ok module, st'))
    (hattr : pyGetAttr module mname = some (.callable m))
    (hbad : params.any (fun p => !m.accepted.contains p.1) = true) :
    (run_script_async fs st script mname params timeout).1 =
      .error ⟨400, "Error calling method '" ++ mname ++ "': " ++
        "got an unexpected keyword argument"⟩ := by
  have hinv : invokeAttr (.callable m) params =
      ⟨0, .typeError "got an unexpected keyword argument"⟩ := by
    rw [invokeAttr, if_pos hbad]
  simp [run_script_async, hload, hattr, hinv, waitFor]

/-- Witness method/module/state fixtures for the dispatch theorems. -/
def wMeth : Method := ⟨["x"], ["x"], fun _ => ⟨0, .ok PyVal.none⟩⟩

def wModF : PyModule := ⟨0, [("f", .callable wMeth)]⟩

def wStF : LoadState := ⟨[("s", wModF)], fun _ => 0, 1⟩

/-- Witness for C4 at a concrete input: dispatching `s.f` with the
unexpected key `"y"` yields the 400 error. -/
theorem c4_param_mismatch_is_bad_request_witness :
    (run_script_async (fun _ => Option.none) wStF "s" "f"
        [("y", .int 1)] 5).1 =
      .error ⟨400, "Error calling method 'f': got an unexpected keyword argument"⟩ := by
  exact
  c4_param_mismatch_is_bad_request (fun _ => Option.none) wStF "s" "f"
    [("y", .int 1)] 5 wModF wStF wMeth (by rfl) (by rfl) (by rfl)

/-- C10: a `TypeError` raised from inside the method body itself (the
binding of the parameters succeeded) is still reported as a 400 bad
request, because the engine's `except TypeError` clause catches every
`TypeError` escaping the invocation. -/
theorem c10_body_type_error_is_bad_request (fs : FS) (st : LoadState)
    (script mname : String) (params : List (String × PyVal)) (timeout : Nat)
    (module : PyModule) (st' : LoadState) (m : Method) (d : Nat) (msg : String)
    (hload : load_script fs st script = (.ok module, st'))
    (hattr : pyGetAttr module mname = some (.callable m))
    (hkeys : params.any (fun p => !m.accepted.contains p.1) = false)
    (hreq : m.required.any (fun r => !(params.map Prod.fst).contains r) = false)
    (hrun : m.run params = ⟨d, .typeError msg⟩)
    (hd : d ≤ timeout) :
    (run_script_async fs st script mname params timeout).1 =
      .error ⟨400, "Error calling method '" ++ mname ++ "': " ++ msg⟩ := by
  have hinv : invokeAttr (.callable m) params = ⟨d, .typeError msg⟩ := by
    rw [invokeAttr, if_neg (by rw [hkeys]; simp), if_neg (by rw [hreq]; simp),
      hrun]
  simp [run_script_async, hload, hattr, hinv, waitFor, Nat.not_lt.mpr hd]

/-- A method whose body raises `TypeError` after binding succeeds. -/
def wMethTE : Method := ⟨["x"], [], fun _ => ⟨0, .typeError "bad operand"⟩⟩

def wModTE : PyModule := ⟨0, [("g", .callable wMethTE)]⟩

def wStTE : LoadState := ⟨[("s", wModTE)], fun _ => 0, 1⟩

/-- Witness for C10 at a concrete input: `s.g` binds `[]` fine and its
body raises `TypeError`, reported as 400. -/
theorem c10_body_type_error_is_bad_request_witness :
    (run_script_async (fun _ => Option.none) wStTE "s" "g" [] 5).1 =
      .error ⟨400, "Error calling method 'g': bad operand"⟩ :=
  c10_body_type_error_is_bad_request (fun _ => Option.none) wStTE "s" "g" [] 5
    wModTE wStTE wMethTE 0 "bad operand" (by rfl) (by rfl) (by rfl) (by rfl)
    (by rfl) (by decide)

/-- A module with a non-callable attribute `x`. -/
def wModP : PyModule := ⟨0, [("x", .plain (.int 5))]⟩

def wStP : LoadState := ⟨[("s", wModP)], fun _ => 0, 1⟩

/-- Counterexample to C6 as stated: the engine checks only
`hasattr`, not callability, so dispatching the existing non-callable
attribute `x` raises `TypeError` at call time and surfaces as 400, not
as the claimed 404. -/
theorem c6_counterexample_noncallable_is_400 :
    errStatus (run_script_async (fun _ => Option.none) wStP "s" "x" [] 5).1 =
      some 400 ∧
    errStatus (run_script_async (fun _ => Option.none) wStP "s" "x" [] 5).1 ≠
      some 404 := by
  refine ⟨by rfl, ?_⟩
  intro h
  rw [show errStatus (run_script_async (fun _ => Option.none) wStP "s" "x" [] 5).1 =
      some 400 from rfl] at h
  exact absurd h (by decide)

/-- C6 amended: a dispatch whose `method_name` is absent from the
loaded module fails with 404; when the attribute exists but is not
callable, the call raises `TypeError` and the engine reports 400
instead. -/
theorem c6_missing_method_is_404 (fs : FS) (st : LoadState)
    (script mname : String) (params : List (String × PyVal)) (timeout : Nat)
    (module : PyModule) (st' : LoadState) (v : PyVal)
    (hload : load_script fs st script = (.ok module, st')) :
    (pyGetAttr module mname = Option.none →
      (run_script_async fs st script mname params timeout).1 =
        .error ⟨404, "Метод '" ++ mname ++ "' не найден в скрипте '" ++
          script ++ "'."⟩) ∧
    (pyGetAttr module mname = some (.plain v) →
      (run_script_async fs st script mname params timeout).1 =
        .error ⟨400, "Error calling method '" ++ mname ++ "': " ++
          ("'" ++ pyTypeName v ++ "' object is not callable")⟩) := by
  constructor
  · intro h
    simp [run_script_async, hload, h]
  · intro h
    simp [run_script_async, hload, h, invokeAttr, waitFor]

/-- Witness for the amended C6 at concrete inputs: the absent method
`zzz` yields 404; the non-callable attribute `x` yields 400. -/
theorem c6_missing_method_is_404_witness :
    (run_script_async (fun _ => Option.none) wStP "s" "zzz" [] 5).1 =
      .error ⟨404, "Метод 'zzz' не найден в скрипте 's'."⟩ ∧
    (run_script_async (fun _ => Option.none) wStP "s" "x" [] 5).1 =
      .error ⟨400, "Error calling method 'x': 'int' object is not callable"⟩ := by
  have H := c6_missing_method_is_404 (fun _ => Option.none) wStP "s" "zzz" [] 5
    wModP wStP (.int 5) (by rfl)
  have H2 := c6_missing_method_is_404 (fun _ => Option.none) wStP "s" "x" [] 5
    wModP wStP (.int 5) (by rfl)
  exact ⟨H.1 (by rfl), H2.2 (by rfl)⟩

/-- C8: when the invocation's duration exceeds the timeout, the engine
answers 408 and `asyncio.wait_for` stops waiting after exactly the
timeout, however long the worker keeps running. -/
theorem c8_timeout_bounded_wait (fs : FS) (st : LoadState)
    (script mname : String) (params : List (String × PyVal)) (timeout : Nat)
    (module : PyModule) (st' : LoadState) (attr : Attr)
    (hload : load_script fs st script = (.ok module, st'))
    (hattr : pyGetAttr module mname = some attr)
    (hslow : (invokeAttr attr params).duration > timeout) :
    (run_script_async fs st script mname params timeout).1 =
      .error ⟨408, "Script execution timed out."⟩ ∧
    waitFor (invokeAttr attr params) timeout = (.error (), timeout) := by
  have hw : waitFor (invokeAttr attr params) timeout = (.error (), timeout) := by
    rw [waitFor, if_pos hslow]
  constructor
  · simp [run_script_async, hload, hattr, hw]
  · exact hw

/-- A method that runs for 10 abstract time units. -/
def wMethSlow : Method := ⟨[], [], fun _ => ⟨10, .ok PyVal.none⟩⟩

def wModSlow : PyModule := ⟨0, [("h", .callable wMethSlow)]⟩

def wStSlow : LoadState := ⟨[("s", wModSlow)], fun _ => 0, 1⟩

/-- Witness for C8 at a concrete input: a 10-unit handler under a
5-unit timeout yields 408 and the engine waited exactly 5 units. -/
theorem c8_timeout_bounded_wait_witness :
    (run_script_async (fun _ => Option.none) wStSlow "s" "h" [] 5).1 =
      .error ⟨408, "Script execution timed out."⟩ ∧
    waitFor (invokeAttr (.callable wMethSlow) []) 5 = (.error (), 5) :=
  c8_timeout_bounded_wait (fun _ => Option.none) wStSlow "s" "h" [] 5
    wModSlow wStSlow (.callable wMethSlow) (by rfl) (by rfl) (by decide)


/-- A string with a non-empty left part stays non-empty after
appending. -/
lemma append_ne_empty_left (s t : String) (h : s ≠ "") : s ++ t ≠ "" := by
  intro he
  apply h
  have hd := congrArg String.data he
  rw [String.data_append] at hd
  have hs : s.data = [] := (List.append_eq_nil.mp hd).1
  cases s with
  | mk d =>
      rw [show (String.mk d).data = d from rfl] at hs
      rw [hs]

/-- C5: every result record `execute_command` returns has
`status = "success"` exactly when `exit_code = 0`; on authentication,
connection or unexpected failure the record keeps the `-1` sentinel
exit code, a non-empty `error`, and its `stdout`/`stderr` fields stay
at their unset/empty initial values. -/
theorem c5_status_iff_exit_zero (host command : String)
    (username : Option String) (policy : String) (parse_json : Bool)
    (jsonParse : String → Option PyVal) (net : ConnectOutcome) (elapsed : Rat)
    (r : RCResult)
    (h : execute_command host command username policy parse_json jsonParse
      net elapsed = .ok r) :
    (r.status = "success" ↔ r.exit_code = 0) ∧
    (∀ msg, net = .authFail msg →
      r.exit_code = -1 ∧ r.error ≠ "" ∧ r.stdout = PyVal.none ∧ r.stderr = "") ∧
    (∀ ty msg, net = .connFail ty msg →
      r.exit_code = -1 ∧ r.error ≠ "" ∧ r.stdout = PyVal.none ∧ r.stderr = "") ∧
    (∀ ty msg, net = .otherFail ty msg →
      r.exit_code = -1 ∧ r.error ≠ "" ∧ r.stdout = PyVal.none ∧ r.stderr = "") := by
  rw [execute_command] at h
  rcases hv : ssh_validate host command username policy with _ | e
  · rw [hv] at h
    simp only [Except.ok.injEq] at h
    subst h
    cases net with
    | success run =>
        refine ⟨?_, ?_, ?_, ?_⟩
        · by_cases hz : run.exitCode = 0
          · simp [ssh_attempt, hz]
          · simp only [ssh_attempt, if_neg hz]
            constructor
            · intro hse
              exact absurd (show ("error" : String) = "success" from hse)
                (by decide)
            · intro hz0
              exact absurd hz0 hz
        · intro msg hne; cases hne
        · intro ty msg hne; cases hne
        · intro ty msg hne; cases hne
    | authFail msg =>
        refine ⟨?_, ?_, ?_, ?_⟩
        · constructor
          · intro hse
            exact absurd (show ("error" : String) = "success" from hse)
              (by decide)
          · intro hz0
            exact absurd (show (-1 : Int) = 0 from hz0) (by decide)
        · intro msg' _
          refine ⟨rfl, ?_, rfl, rfl⟩
          show ("Authentication failed: Check credentials" : String) ≠ ""
          decide
        · intro ty msg' hne; cases hne
        · intro ty msg' hne; cases hne
    | connFail ty msg =>
        refine ⟨?_, ?_, ?_, ?_⟩
        · constructor
          · intro hse
            exact absurd (show ("error" : String) = "success" from hse)
              (by decide)
          · intro hz0
            exact absurd (show (-1 : Int) = 0 from hz0) (by decide)
        · intro msg' hne; cases hne
        · intro ty' msg' _
          refine ⟨rfl, ?_, rfl, rfl⟩
          show "Connection error: " ++ ty ++ ": " ++ msg ≠ ""
          exact append_ne_empty_left _ _
            (append_ne_empty_left _ _
              (append_ne_empty_left _ _ (by decide)))
        · intro ty' msg' hne; cases hne
    | otherFail ty msg =>
        refine ⟨?_, ?_, ?_, ?_⟩
        · constructor
          · intro hse
            exact absurd (show ("error" : String) = "success" from hse)
              (by decide)
          · intro hz0
            exact absurd (show (-1 : Int) = 0 from hz0) (by decide)
        · intro msg' hne; cases hne
        · intro ty' msg' hne; cases hne
        · intro ty' msg' _
          refine ⟨rfl, ?_, rfl, rfl⟩
          show "Unexpected error: " ++ ty ++ ": " ++ msg ≠ ""
          exact append_ne_empty_left _ _
            (append_ne_empty_left _ _
              (append_ne_empty_left _ _ (by decide)))
  · rw [hv] at h
    exact Except.noConfusion h

/-- Witness for C5 at a concrete input: an authentication failure on
host `"h"` yields the sentinel record with the auth error message. -/
theorem c5_status_iff_exit_zero_witness :
    (⟨"error", -1, PyVal.none, "", "Authentication failed: Check credentials",
        0, "h"⟩ : RCResult).status ≠ "success" ∧
    (⟨"error", -1, PyVal.none, "", "Authentication failed: Check credentials",
        0, "h"⟩ : RCResult).error ≠ "" := by
  have H := c5_status_iff_exit_zero "h" "c" (some "u") "warning" true
    (fun _ => Option.none) (.authFail "x") 0
    ⟨"error", -1, PyVal.none, "", "Authentication failed: Check credentials",
      0, "h"⟩ (by rfl)
  refine ⟨?_, (H.2.1 "x" rfl).2.1⟩
  intro hs
  have h0 := H.1.mp hs
  exact absurd h0 (by decide)

/-- C7: missing required arguments among `host`, `username`, `command`
are collected and reported together in a single failure; an invalid
policy fails too — and both validation failures are raised
independently of the network world and of the measured time (no
connection is attempted, no timing from a connection is recorded). -/
theorem c7_validation_before_network (host command : String)
    (username : Option String) (policy : String) (parse_json : Bool)
    (jsonParse : String → Option PyVal) :
    (host.isEmpty = true → strFalsy username = true → command.isEmpty = true →
      ∀ net elapsed,
        execute_command host command username policy parse_json jsonParse
            net elapsed =
          .error ⟨"Missing required parameters: host, username, command"⟩) ∧
    ((host.isEmpty || strFalsy username || command.isEmpty) = true →
      ∀ net elapsed net' elapsed',
        execute_command host command username policy parse_json jsonParse
            net elapsed =
          execute_command host command username policy parse_json jsonParse
            net' elapsed' ∧
        ∃ msg,
          execute_command host command username policy parse_json jsonParse
              net elapsed =
            .error ⟨"Missing required parameters: " ++ msg⟩) ∧
    (host.isEmpty = false → strFalsy username = false →
      command.isEmpty = false →
      policy ≠ "auto" → policy ≠ "warning" → policy ≠ "strict" →
      ∀ net elapsed net' elapsed',
        execute_command host command username policy parse_json jsonParse
            net elapsed =
          execute_command host command username policy parse_json jsonParse
            net' elapsed' ∧
        execute_command host command username policy parse_json jsonParse
            net elapsed =
          .error ⟨"Invalid host policy. Valid options: auto, warning, strict"⟩) := by
  refine ⟨?_, ?_, ?_⟩
  · intro h1 h2 h3 net elapsed
    have hv : ssh_validate host command username policy =
        some ⟨"Missing required parameters: host, username, command"⟩ := by
      simp only [ssh_validate, h1, h2, h3, if_pos]
      rfl
    rw [execute_command, hv]
  · intro hor net elapsed net' elapsed'
    have hne : ((if host.isEmpty then ["host"] else []) ++
        (if strFalsy username then ["username"] else []) ++
        (if command.isEmpty then ["command"] else [])) ≠ [] := by
      have hor' : (host.isEmpty = true ∨ strFalsy username = true) ∨
          command.isEmpty = true := by
        simpa using hor
      rcases hor' with (hh | hu) | hc
      · simp [hh]
      · simp [hu]
      · simp [hc]
    have hv : ssh_validate host command username policy =
        some ⟨"Missing required parameters: " ++
          String.intercalate ", "
            ((if host.isEmpty then ["host"] else []) ++
             (if strFalsy username then ["username"] else []) ++
             (if command.isEmpty then ["command"] else []))⟩ := by
      simp only [ssh_validate]
      rw [if_pos hne]
    rw [execute_command, hv, execute_command, hv]
    exact ⟨rfl, ⟨_, rfl⟩⟩
  · intro h1 h2 h3 p1 p2 p3 net elapsed net' elapsed'
    have hv : ssh_validate host command username policy =
        some ⟨"Invalid host policy. Valid options: auto, warning, strict"⟩ := by
      have hne' : ¬(((if host.isEmpty then ["host"] else []) ++
          (if strFalsy username then ["username"] else []) ++
          (if command.isEmpty then ["command"] else [])) ≠ []) := by
        simp [h1, h2, h3]
      simp only [ssh_validate]
      rw [if_neg hne', if_pos ⟨p1, p2, p3⟩]
    rw [execute_command, hv, execute_command, hv]
    exact ⟨rfl, rfl⟩

/-- Witness for C7 at concrete inputs: all three parameters missing
yields the single collected failure; a bogus policy with complete
parameters yields the invalid-policy failure, in both cases whatever
the network world would have done. -/
theorem c7_validation_before_network_witness :
    execute_command "" "" Option.none "auto" true (fun _ => Option.none)
        (.authFail "x") 0 =
      .error ⟨"Missing required parameters: host, username, command"⟩ ∧
    execute_command "h" "c" (some "u") "bogus" true (fun _ => Option.none)
        (.authFail "x") 0 =
      .error ⟨"Invalid host policy. Valid options: auto, warning, strict"⟩ := by
  have H := c7_validation_before_network "" "" Option.none "auto" true
    (fun _ => Option.none)
  have H2 := c7_validation_before_network "h" "c" (some "u") "bogus" true
    (fun _ => Option.none)
  exact ⟨H.1 rfl rfl rfl (.authFail "x") 0,
    (H2.2.2 rfl rfl rfl (by decide) (by decide) (by decide)
      (.authFail "x") 0 (.authFail "x") 0).2⟩
